import Mathlib

/-!
Verification of the fdv_converter_t repository.

The repository ships a React/Tauri front end (src/src/components/fdv-converter.tsx,
which contains two textual copies of the `FdvConverter` component) together with
documentation of the numerical R3 solver (src/docs/R3_calculator.md).  The Rust
backend commands (`calculate_r3`, `update_timestamps`, ...) are not part of the
repository sources, so the solver and the timestamp validation are modelled from
the documentation / specification; everything else is translated from the
TypeScript component.

Numbers are modelled by exact rationals.  The floating-point square root used by
the solver is abstracted as an oracle parameter `f : ℚ → ℚ`; theorems quantify
over the oracle, and concrete evaluations use `ratSqrt`, which agrees with any
real square root on the perfect-square arguments arising in the chosen inputs.
-/

/-- Outcome classification for the R3 iteration: converged, abandoned because the
square term went negative (math domain error), or ran out of its 1000 iterations. -/
inductive R3Cause
  | converged
  | domainError
  | notConverged
deriving DecidableEq, Repr

/-- Convergence threshold 1e-5 of the R3 iteration. -/
def r3Precision : ℚ := 1 / 100000

/-- Modelled from the spec: the `calculate_r3` backend command is not under src/;
this is the iteration loop of src/docs/R3_calculator.md (identical to the §4.3
pseudocode).  `offset = r3 - r2`, `square_term = (r3 - r1)^2 - (h2 - r1)^2`; a
negative square term returns -1, otherwise `diff = offset - sqrt(square_term)`,
`r3` becomes `r3 + diff / 10`, and the updated `r3` is returned once
`|diff| < 1e-5`.  The fuel argument counts the remaining iterations (1000 at the
start); exhausting it returns -1. -/
def r3Loop (f : ℚ → ℚ) (r1 r2 h2 : ℚ) : ℕ → ℚ → ℚ
  | 0, _ => -1
  | n + 1, r3 =>
    if (r3 - r1) ^ 2 - (h2 - r1) ^ 2 < 0 then -1
    else if |(r3 - r2) - f ((r3 - r1) ^ 2 - (h2 - r1) ^ 2)| < r3Precision then
      r3 + ((r3 - r2) - f ((r3 - r1) ^ 2 - (h2 - r1) ^ 2)) / 10
    else r3Loop f r1 r2 h2 n (r3 + ((r3 - r2) - f ((r3 - r1) ^ 2 - (h2 - r1) ^ 2)) / 10)

/-- Radius at the narrow end: `(h - w)/2` when `eggForm = 1`, `(h - w)/4` otherwise
(src/docs/R3_calculator.md, Initial Definitions). -/
def r1Of (w h : ℚ) (eggForm : ℤ) : ℚ :=
  if eggForm = 1 then (h - w) / 2 else (h - w) / 4

/-- Radius at the widest point, `w / 2`. -/
def r2Of (w : ℚ) : ℚ := w / 2

/-- Adjusted height `h2 = h - r2`. -/
def h2Of (w h : ℚ) : ℚ := h - r2Of w

/-- Modelled from the spec: the `calculate_r3` backend command is not under src/;
this transcribes src/docs/R3_calculator.md.  Initial guess `r3 = h`, at most 1000
iterations of `r3Loop`. -/
def solveR3 (f : ℚ → ℚ) (w h : ℚ) (eggForm : ℤ) : ℚ :=
  r3Loop f (r1Of w h eggForm) (r2Of w) (h2Of w h) 1000 h

/-- The same loop as `r3Loop`, additionally reporting which exit was taken.  This
instrumentation is needed to state the error-handling claims; its first component
is proved equal to `r3Loop`. -/
def r3LoopC (f : ℚ → ℚ) (r1 r2 h2 : ℚ) : ℕ → ℚ → ℚ × R3Cause
  | 0, _ => (-1, R3Cause.notConverged)
  | n + 1, r3 =>
    if (r3 - r1) ^ 2 - (h2 - r1) ^ 2 < 0 then (-1, R3Cause.domainError)
    else if |(r3 - r2) - f ((r3 - r1) ^ 2 - (h2 - r1) ^ 2)| < r3Precision then
      (r3 + ((r3 - r2) - f ((r3 - r1) ^ 2 - (h2 - r1) ^ 2)) / 10, R3Cause.converged)
    else r3LoopC f r1 r2 h2 n (r3 + ((r3 - r2) - f ((r3 - r1) ^ 2 - (h2 - r1) ^ 2)) / 10)

/-- `solveR3` together with the cause of its exit. -/
def solveR3WithCause (f : ℚ → ℚ) (w h : ℚ) (eggForm : ℤ) : ℚ × R3Cause :=
  r3LoopC f (r1Of w h eggForm) (r2Of w) (h2Of w h) 1000 h

/-- Exact rational square root oracle: returns the exact root when the argument is
a nonnegative perfect square (numerator and denominator both perfect squares) and
0 otherwise.  On perfect-square arguments it agrees with the floating-point square
root of the real implementation. -/
def ratSqrt (q : ℚ) : ℚ :=
  if 0 ≤ q.num ∧ Nat.sqrt q.num.toNat * Nat.sqrt q.num.toNat = q.num.toNat ∧
      Nat.sqrt q.den * Nat.sqrt q.den = q.den then
    (Nat.sqrt q.num.toNat : ℚ) / (Nat.sqrt q.den : ℚ)
  else 0

/-- One iteration of the solver as worded by the specification: computes the
offset and square term, fails on a negative square term (`Sum.inl (-1)`), and
otherwise either returns the updated radius on convergence (`Sum.inl`) or hands
the updated radius to the next iteration (`Sum.inr`). -/
def specStep (f : ℚ → ℚ) (r1 r2 h2 r3 : ℚ) : ℚ ⊕ ℚ :=
  if (r3 - r1) ^ 2 - (h2 - r1) ^ 2 < 0 then Sum.inl (-1)
  else if |(r3 - r2) - f ((r3 - r1) ^ 2 - (h2 - r1) ^ 2)| < 1 / 100000 then
    Sum.inl (r3 + ((r3 - r2) - f ((r3 - r1) ^ 2 - (h2 - r1) ^ 2)) / 10)
  else Sum.inr (r3 + ((r3 - r2) - f ((r3 - r1) ^ 2 - (h2 - r1) ^ 2)) / 10)

/-- The specification's iteration: run `specStep` for at most the given number of
iterations, returning -1 when they are exhausted. -/
def specLoop (f : ℚ → ℚ) (r1 r2 h2 : ℚ) : ℕ → ℚ → ℚ
  | 0, _ => -1
  | n + 1, r3 =>
    match specStep f r1 r2 h2 r3 with
    | Sum.inl v => v
    | Sum.inr r => specLoop f r1 r2 h2 n r

/-- The solver exactly as the specification words it: `r2 = w/2`,
`r1 = (h-w)/2` when `eggForm = 1` and `(h-w)/4` otherwise, `h2 = h - r2`,
initial guess `r3 = h`, at most 1000 iterations. -/
def specSolveR3 (f : ℚ → ℚ) (w h : ℚ) (eggForm : ℤ) : ℚ :=
  specLoop f (if eggForm = 1 then (h - w) / 2 else (h - w) / 4) (w / 2) (h - w / 2) 1000 h

/-- File picked in the single-file flow (`FileDetails` in fdv-converter.tsx). -/
structure FileDetails where
  name : String
  path : String
deriving DecidableEq, Repr

/-- The fields of `ProcessedFileData` that the modelled handlers read. -/
structure ProcessedData where
  siteId : String
  siteName : String
  startTimestamp : String
  endTimestamp : String
deriving DecidableEq, Repr

/-- One entry of the batch list (`BatchFileDetails` in fdv-converter.tsx). -/
structure BatchFileDetails where
  name : String
  path : String
  pipeShape : String
  pipeSize : String
deriving DecidableEq, Repr

/-- The `useState` cells of the `FdvConverter` component that the modelled
handlers touch (fdv-converter.tsx, lines 77-104; the second copy of the
component declares the same cells). -/
structure ConverterState where
  siteId : String
  siteName : String
  startTimestamp : String
  endTimestamp : String
  selectedFile : Option FileDetails
  error : Option String
  depthColumn : String
  velocityColumn : String
  pipeShape : String
  pipeSize : String
  processedData : Option ProcessedData
  rainfallColumn : String
  eggType : String
  pipeWidth : String
  pipeHeight : String
  r3Value : String
  batchFiles : List BatchFileDetails
  logs : List (String × String)
deriving DecidableEq, Repr

/-- The initial values of all `useState` cells. -/
def initState : ConverterState :=
  { siteId := "", siteName := "", startTimestamp := "", endTimestamp := "",
    selectedFile := none, error := none, depthColumn := "", velocityColumn := "",
    pipeShape := "", pipeSize := "", processedData := none, rainfallColumn := "",
    eggType := "Egg Type 1", pipeWidth := "", pipeHeight := "", r3Value := "",
    batchFiles := [], logs := [] }

/-- `resetState` (fdv-converter.tsx, lines 108-123; identical in the second copy
at lines 1059-1074): clears site details, selected file, error, depth and
velocity columns, pipe shape and size, processed data and logs. -/
def resetState (st : ConverterState) : ConverterState :=
  { st with
    siteId := "", siteName := "", startTimestamp := "", endTimestamp := "",
    selectedFile := none, error := none, depthColumn := "", velocityColumn := "",
    pipeShape := "", pipeSize := "", processedData := none, logs := [] }

/-- JavaScript `s.split(sep).pop()`: the last piece of the split (split never
yields an empty array, so `pop` never yields `undefined` on a string). -/
def jsLastSegment (s sep : String) : String := (s.splitOn sep).getLastD ""

/-- The file-name computation of `handleFileChange`:
`selected.split("\\").pop() || selected.split("/").pop() || selected`,
where `||` falls through on the empty string. -/
def jsFileName (selected : String) : String :=
  if jsLastSegment selected "\\" ≠ "" then jsLastSegment selected "\\"
  else if jsLastSegment selected "/" ≠ "" then jsLastSegment selected "/"
  else selected

/-- `handleFileChange` (fdv-converter.tsx, lines 125-166) after the user picked
`selected` in the dialog and before `handleProcessFile` runs: `resetState()`,
then the selected file is stored and the error cleared (the
`clear_command_handler_state` backend call does not touch component state). -/
def handleFileChangeSelected (st : ConverterState) (selected : String) : ConverterState :=
  { resetState st with
    selectedFile := some { name := jsFileName selected, path := selected },
    error := none }

/-- JavaScript `a || b` on strings: `b` when `a` is the empty string. -/
def jsOrElse (a b : String) : String := if a = "" then b else a

/-- The request `handleCreateFdv` issues to the `create_fdv_flow` command,
together with the suggested default file name passed to the save dialog. -/
structure FdvRequest where
  suggestedFileName : String
  outputPath : String
  depthCol : String
  velocityCol : Option String
  pipeShape : String
  pipeSize : String
deriving DecidableEq, Repr

/-- The request built by the first copy of `handleCreateFdv` (fdv-converter.tsx,
lines 344-371): suggested name `processedData?.siteId || 'output'` plus `.fdv`,
`velocityCol` is `null` when the selection is the sentinel `'none'`, and
`pipeSize` falls back to the empty string. -/
def mkFdvRequestV1 (st : ConverterState) (savePath : String) : FdvRequest :=
  { suggestedFileName :=
      (match st.processedData with
        | some pd => jsOrElse pd.siteId "output"
        | none => "output") ++ ".fdv",
    outputPath := savePath,
    depthCol := st.depthColumn,
    velocityCol := if st.velocityColumn = "none" then none else some st.velocityColumn,
    pipeShape := st.pipeShape,
    pipeSize := jsOrElse st.pipeSize "" }

/-- The request built by the second copy of `handleCreateFdv` (fdv-converter.tsx,
lines 1277-1301), translated independently from that copy. -/
def mkFdvRequestV2 (st : ConverterState) (savePath : String) : FdvRequest :=
  { suggestedFileName :=
      (match st.processedData with
        | some pd => jsOrElse pd.siteId "output"
        | none => "output") ++ ".fdv",
    outputPath := savePath,
    depthCol := st.depthColumn,
    velocityCol := if st.velocityColumn = "none" then none else some st.velocityColumn,
    pipeShape := st.pipeShape,
    pipeSize := jsOrElse st.pipeSize "" }

/-- Result of `handleBatchProcess`: the new component state and whether
`run_batch_process` was invoked. -/
structure BatchRun where
  state : ConverterState
  invoked : Bool
deriving DecidableEq, Repr

/-- `handleBatchProcess` (fdv-converter.tsx, lines 527-568): an empty batch list
sets an error and returns without invoking; otherwise the error is cleared, and
if an output directory was chosen the `run_batch_process` command runs —
on success the batch list is emptied, on failure the error message is stored and
the batch list is left as it was. -/
def handleBatchProcess (st : ConverterState) (outputDir : Option String)
    (res : Except String Unit) : BatchRun :=
  if st.batchFiles = [] then
    { state := { st with error := some "No files selected for batch processing." },
      invoked := false }
  else
    match outputDir with
    | none => { state := { st with error := none }, invoked := false }
    | some _ =>
      match res with
      | Except.ok _ =>
        { state := { st with error := none, batchFiles := [] }, invoked := true }
      | Except.error e =>
        { state := { st with error := some ("Error during batch processing: " ++ e) },
          invoked := true }

/-- JavaScript `Number.prototype.toFixed(2)` on an exact rational: sign of the
argument, then the magnitude rounded to the nearest multiple of 1/100 with ties
away from zero, rendered with exactly two digits after the decimal point. -/
def toFixed2 (q : ℚ) : String :=
  (if q < 0 then "-" else "") ++
    toString ((⌊|q| * 100 + 1 / 2⌋).toNat / 100) ++ "." ++
    String.mk [Nat.digitChar ((⌊|q| * 100 + 1 / 2⌋).toNat / 10 % 10),
      Nat.digitChar ((⌊|q| * 100 + 1 / 2⌋).toNat % 10)]

/-- `handleCalculateR3` (fdv-converter.tsx, lines 398-426): empty width or
height sets an error and returns without invoking `calculate_r3`; otherwise the
backend result is parsed — `none` models a string that parses to NaN — and a NaN
or -1 result sets the error "R3 calculation failed" leaving `r3Value` as it was,
a thrown backend error stores its message, and only a successful numeric result
stores `toFixed2` of it in `r3Value`.  The boolean records whether the command
was invoked. -/
def handleCalculateR3 (st : ConverterState) (res : Except String (Option ℚ)) :
    ConverterState × Bool :=
  if st.pipeWidth = "" ∨ st.pipeHeight = "" then
    ({ st with error := some "Please fill in all required fields" }, false)
  else
    match res with
    | Except.error m =>
      ({ st with error := some ("Failed to calculate R3: " ++ m) }, true)
    | Except.ok none => ({ st with error := some "R3 calculation failed" }, true)
    | Except.ok (some v) =>
      if v = -1 then ({ st with error := some "R3 calculation failed" }, true)
      else ({ st with error := none, r3Value := toFixed2 v }, true)

/-- Session metadata bounds, with the raw data's time range, on an abstract
chronological axis. -/
structure Session where
  siteId : String
  siteName : String
  startTs : ℤ
  endTs : ℤ
  rawStartTs : ℤ
  rawEndTs : ℤ
deriving DecidableEq, Repr

/-- Result of a timestamp update: the (possibly unchanged) session, whether the
update was rejected with a validation error, and whether a warning event was
emitted. -/
structure TimestampUpdate where
  session : Session
  rejected : Bool
  warned : Bool
deriving DecidableEq, Repr

/-- Modelled from the spec: the `update_timestamps` backend command is not under
src/ (the frontend `handleUpdateTimestamps` only forwards to it).  Per §4.2 the
update requires `start ≤ end` and is otherwise rejected with a ValidationError
leaving the stored bounds unchanged; bounds outside the loaded raw data's range
are stored anyway but flag a warning event. -/
def updateTimestamps (st : Session) (s e : ℤ) : TimestampUpdate :=
  if s ≤ e then
    { session := { st with startTs := s, endTs := e },
      rejected := false,
      warned := decide (s < st.rawStartTs) || decide (st.rawEndTs < e) }
  else
    { session := st, rejected := true, warned := false }

/-- A concrete component state with every user selection populated, used to
exhibit what survives a file reload. -/
def sampleLoadedState : ConverterState :=
  { siteId := "SITE-1", siteName := "Old Site", startTimestamp := "2024-01-01 00:00",
    endTimestamp := "2024-01-31 23:58",
    selectedFile := some { name := "old.xlsx", path := "C:\\data\\old.xlsx" },
    error := some "stale error",
    depthColumn := "Depth 1", velocityColumn := "Velocity 1",
    pipeShape := "Egg Type 1", pipeSize := "300,450,1071.43",
    processedData := some
      { siteId := "SITE-1", siteName := "Old Site",
        startTimestamp := "2024-01-01 00:00", endTimestamp := "2024-01-31 23:58" },
    rainfallColumn := "Rainfall 1", eggType := "Egg Type 2", pipeWidth := "300",
    pipeHeight := "450", r3Value := "1071.43",
    batchFiles :=
      [{ name := "b.csv", path := "C:\\data\\b.csv", pipeShape := "Circular",
         pipeSize := "150" }],
    logs := [("info", "loaded")] }

theorem r3Loop_eq_specLoop (f : ℚ → ℚ) (r1 r2 h2 : ℚ) :
    ∀ (n : ℕ) (r3 : ℚ), r3Loop f r1 r2 h2 n r3 = specLoop f r1 r2 h2 n r3 := by
  intro n
  induction n with
  | zero => intro r3; rfl
  | succ n ih =>
    intro r3
    rw [r3Loop, specLoop, specStep]
    have hp : r3Precision = 1 / 100000 := rfl
    rw [hp]
    split_ifs <;> simp [ih]

theorem r3Loop_succ (f : ℚ → ℚ) (r1 r2 h2 : ℚ) (n : ℕ) (r3 : ℚ) :
    r3Loop f r1 r2 h2 (n + 1) r3 =
      if (r3 - r1) ^ 2 - (h2 - r1) ^ 2 < 0 then -1
      else if |(r3 - r2) - f ((r3 - r1) ^ 2 - (h2 - r1) ^ 2)| < r3Precision then
        r3 + ((r3 - r2) - f ((r3 - r1) ^ 2 - (h2 - r1) ^ 2)) / 10
      else r3Loop f r1 r2 h2 n (r3 + ((r3 - r2) - f ((r3 - r1) ^ 2 - (h2 - r1) ^ 2)) / 10) :=
  rfl

theorem r3LoopC_succ (f : ℚ → ℚ) (r1 r2 h2 : ℚ) (n : ℕ) (r3 : ℚ) :
    r3LoopC f r1 r2 h2 (n + 1) r3 =
      if (r3 - r1) ^ 2 - (h2 - r1) ^ 2 < 0 then (-1, R3Cause.domainError)
      else if |(r3 - r2) - f ((r3 - r1) ^ 2 - (h2 - r1) ^ 2)| < r3Precision then
        (r3 + ((r3 - r2) - f ((r3 - r1) ^ 2 - (h2 - r1) ^ 2)) / 10, R3Cause.converged)
      else r3LoopC f r1 r2 h2 n (r3 + ((r3 - r2) - f ((r3 - r1) ^ 2 - (h2 - r1) ^ 2)) / 10) :=
  rfl

theorem ratSqrt_zero : ratSqrt 0 = 0 := by
  norm_num [ratSqrt]

theorem r3LoopC_fst (f : ℚ → ℚ) (r1 r2 h2 : ℚ) :
    ∀ (n : ℕ) (r3 : ℚ), (r3LoopC f r1 r2 h2 n r3).1 = r3Loop f r1 r2 h2 n r3 := by
  intro n
  induction n with
  | zero => intro r3; rfl
  | succ n ih =>
    intro r3
    rw [r3LoopC_succ, r3Loop_succ]
    split_ifs <;> simp [ih]

theorem r3LoopC_fail (f : ℚ → ℚ) (r1 r2 h2 : ℚ) :
    ∀ (n : ℕ) (r3 : ℚ), (r3LoopC f r1 r2 h2 n r3).2 ≠ R3Cause.converged →
      (r3LoopC f r1 r2 h2 n r3).1 = -1 := by
  intro n
  induction n with
  | zero => intro r3 _; rfl
  | succ n ih =>
    intro r3 hc
    rw [r3LoopC_succ] at hc ⊢
    split_ifs at hc ⊢ with h1 h2
    · rfl
    · simp at hc
    · exact ih _ hc

theorem r3LoopC_conv (f : ℚ → ℚ) (r1 r2 h2 : ℚ) :
    ∀ (n : ℕ) (r3 : ℚ), (r3LoopC f r1 r2 h2 n r3).2 = R3Cause.converged →
      ∃ rp, 0 ≤ (rp - r1) ^ 2 - (h2 - r1) ^ 2 ∧
        |(rp - r2) - f ((rp - r1) ^ 2 - (h2 - r1) ^ 2)| < r3Precision ∧
        (r3LoopC f r1 r2 h2 n r3).1 =
          rp + ((rp - r2) - f ((rp - r1) ^ 2 - (h2 - r1) ^ 2)) / 10 := by
  intro n
  induction n with
  | zero => intro r3 hc; simp [r3LoopC] at hc
  | succ n ih =>
    intro r3 hc
    rw [r3LoopC_succ] at hc ⊢
    split_ifs at hc ⊢ with h1 h2
    · exact ⟨r3, not_lt.mp h1, h2, rfl⟩
    · exact ih _ hc

/-- C1: for every width, height and eggForm, `solveR3` computes `r2 = w/2`,
`r1 = (h-w)/2` when `eggForm = 1` and `(h-w)/4` for every other value,
`h2 = h - r2`, starts from the initial guess `r3 = h`, and on each of at most
1000 iterations updates `r3` to `r3 + (offset - sqrt((r3-r1)^2 - (h2-r1)^2))/10`
where `offset = r3 - r2`, returning the current `r3` as soon as
`|offset - sqrt(...)| < 1e-5`: the solver translated from the source agrees with
the specification-worded `specSolveR3` on every input and every square-root
oracle. -/
theorem solveR3_eq_specSolveR3 (f : ℚ → ℚ) (w h : ℚ) (eggForm : ℤ) :
    solveR3 f w h eggForm = specSolveR3 f w h eggForm := by
  rw [solveR3, specSolveR3, r1Of, r2Of, h2Of, r2Of, r3Loop_eq_specLoop]

/-- C2: the solver returns the sentinel -1 both on a domain error (negative
square term) and on iteration exhaustion, and `solveR3` returns only that value,
so a caller receiving -1 cannot tell the two failure causes apart from the
return value alone. -/
theorem solveR3_failure_sentinel (f : ℚ → ℚ) (w h : ℚ) (eggForm : ℤ)
    (hfail : (solveR3WithCause f w h eggForm).2 ≠ R3Cause.converged) :
    solveR3 f w h eggForm = -1 ∧
      solveR3 f w h eggForm = (solveR3WithCause f w h eggForm).1 := by
  have he : (solveR3WithCause f w h eggForm).1 = solveR3 f w h eggForm :=
    r3LoopC_fst f _ _ _ 1000 h
  have hv : (solveR3WithCause f w h eggForm).1 = -1 :=
    r3LoopC_fail f _ _ _ 1000 h hfail
  exact ⟨he ▸ hv, he.symm⟩

theorem solveR3_failure_sentinel_w :
    (solveR3WithCause ratSqrt (-3) 2 1).2 ≠ R3Cause.converged ∧
      solveR3 ratSqrt (-3) 2 1 = -1 ∧
      solveR3 ratSqrt (-3) 2 1 = (solveR3WithCause ratSqrt (-3) 2 1).1 := by
  have hc : (solveR3WithCause ratSqrt (-3) 2 1).2 = R3Cause.domainError := by
    rw [solveR3WithCause, show (1000 : ℕ) = 999 + 1 by norm_num, r3LoopC_succ]
    norm_num [r1Of, r2Of, h2Of]
  have hne : (solveR3WithCause ratSqrt (-3) 2 1).2 ≠ R3Cause.converged := by
    rw [hc]; intro hcontra; cases hcontra
  exact ⟨hne, solveR3_failure_sentinel ratSqrt (-3) 2 1 hne⟩

/-- C3, counterexample: at width 1/524288, height -1/1048576, eggForm 1 the
solver converges on the first iteration (square term exactly 0, diff ≈ -1.9e-6),
but because the returned value is the post-update `r3 + diff/10`, the returned
value violates `(r3 - r1)^2 - (h2 - r1)^2 ≥ 0`: the square term of the returned
value is strictly negative. -/
theorem solveR3_post_square_cex :
    (solveR3WithCause ratSqrt (1 / 524288) (-1 / 1048576) 1).2 = R3Cause.converged ∧
      solveR3 ratSqrt (1 / 524288) (-1 / 1048576) 1 ≠ -1 ∧
      (solveR3 ratSqrt (1 / 524288) (-1 / 1048576) 1 - r1Of (1 / 524288) (-1 / 1048576) 1) ^ 2 -
        (h2Of (1 / 524288) (-1 / 1048576) - r1Of (1 / 524288) (-1 / 1048576) 1) ^ 2 < 0 := by
  have hval : solveR3 ratSqrt (1 / 524288) (-1 / 1048576) 1 = -3 / 2621440 := by
    rw [solveR3, show (1000 : ℕ) = 999 + 1 by norm_num, r3Loop_succ]
    norm_num [r1Of, r2Of, h2Of, r3Precision, ratSqrt_zero, abs_lt]
  have hcause : (solveR3WithCause ratSqrt (1 / 524288) (-1 / 1048576) 1).2 = R3Cause.converged := by
    rw [solveR3WithCause, show (1000 : ℕ) = 999 + 1 by norm_num, r3LoopC_succ]
    norm_num [r1Of, r2Of, h2Of, r3Precision, ratSqrt_zero, abs_lt]
  refine ⟨hcause, ?_, ?_⟩
  · rw [hval]; norm_num
  · rw [hval]; norm_num [r1Of, r2Of, h2Of]

/-- C3, amended: on every input on which the solver converges, the value of `r3`
at the start of the final iteration satisfies `(r3 - r1)^2 - (h2 - r1)^2 ≥ 0`,
the final iteration's diff has magnitude strictly below 1e-5, and the returned
value is that `r3` plus `diff/10` (the post-update radius), not necessarily
satisfying the inequality itself. -/
theorem solveR3_converged_final_iter (f : ℚ → ℚ) (w h : ℚ) (eggForm : ℤ)
    (hc : (solveR3WithCause f w h eggForm).2 = R3Cause.converged) :
    ∃ rp, 0 ≤ (rp - r1Of w h eggForm) ^ 2 - (h2Of w h - r1Of w h eggForm) ^ 2 ∧
      |(rp - r2Of w) - f ((rp - r1Of w h eggForm) ^ 2 - (h2Of w h - r1Of w h eggForm) ^ 2)| <
        r3Precision ∧
      solveR3 f w h eggForm =
        rp + ((rp - r2Of w) -
          f ((rp - r1Of w h eggForm) ^ 2 - (h2Of w h - r1Of w h eggForm) ^ 2)) / 10 := by
  have hinv := r3LoopC_conv f (r1Of w h eggForm) (r2Of w) (h2Of w h) 1000 h hc
  have he : (r3LoopC f (r1Of w h eggForm) (r2Of w) (h2Of w h) 1000 h).1 =
      solveR3 f w h eggForm := r3LoopC_fst f _ _ _ 1000 h
  obtain ⟨rp, h1, h2, h3⟩ := hinv
  exact ⟨rp, h1, h2, he ▸ h3⟩

theorem solveR3_converged_final_iter_w :
    (solveR3WithCause ratSqrt 0 0 1).2 = R3Cause.converged ∧
      ∃ rp, 0 ≤ (rp - r1Of 0 0 1) ^ 2 - (h2Of 0 0 - r1Of 0 0 1) ^ 2 ∧
        |(rp - r2Of 0) - ratSqrt ((rp - r1Of 0 0 1) ^ 2 - (h2Of 0 0 - r1Of 0 0 1) ^ 2)| <
          r3Precision ∧
        solveR3 ratSqrt 0 0 1 =
          rp + ((rp - r2Of 0) -
            ratSqrt ((rp - r1Of 0 0 1) ^ 2 - (h2Of 0 0 - r1Of 0 0 1) ^ 2)) / 10 := by
  have hcause : (solveR3WithCause ratSqrt 0 0 1).2 = R3Cause.converged := by
    rw [solveR3WithCause, show (1000 : ℕ) = 999 + 1 by norm_num, r3LoopC_succ]
    norm_num [r1Of, r2Of, h2Of, r3Precision, ratSqrt_zero]
  exact ⟨hcause, solveR3_converged_final_iter ratSqrt 0 0 1 hcause⟩

/-- C4, counterexample: `solveR3(0, 0, 1)` does not return the failure sentinel
-1.  With width 0 and height 0 the square term on the first iteration is exactly
0 — not negative — so no domain error occurs; the diff is 0, the iteration
converges immediately, and the solver returns 0. -/
theorem solveR3_degenerate_cex :
    solveR3 ratSqrt 0 0 1 = 0 ∧ (0 : ℚ) ≠ -1 ∧
      (solveR3WithCause ratSqrt 0 0 1).2 = R3Cause.converged := by
  refine ⟨?_, by norm_num, ?_⟩
  · rw [solveR3, show (1000 : ℕ) = 999 + 1 by norm_num, r3Loop_succ]
    norm_num [r1Of, r2Of, h2Of, r3Precision, ratSqrt_zero]
  · rw [solveR3WithCause, show (1000 : ℕ) = 999 + 1 by norm_num, r3LoopC_succ]
    norm_num [r1Of, r2Of, h2Of, r3Precision, ratSqrt_zero]

/-- C4, amended: for every square-root oracle that maps 0 to 0 (as every real
square root does), `solveR3(0, 0, 1)` returns 0 by converging on the first
iteration: the degenerate geometry makes the square term exactly zero, which is
not negative, so the domain-error path is not taken. -/
theorem solveR3_degenerate_converges (f : ℚ → ℚ) (h0 : f 0 = 0) :
    solveR3 f 0 0 1 = 0 ∧ (solveR3WithCause f 0 0 1).2 = R3Cause.converged := by
  constructor
  · rw [solveR3, show (1000 : ℕ) = 999 + 1 by norm_num, r3Loop_succ]
    norm_num [r1Of, r2Of, h2Of, r3Precision, h0]
  · rw [solveR3WithCause, show (1000 : ℕ) = 999 + 1 by norm_num, r3LoopC_succ]
    norm_num [r1Of, r2Of, h2Of, r3Precision, h0]

theorem solveR3_degenerate_converges_w :
    ratSqrt 0 = 0 ∧ solveR3 ratSqrt 0 0 1 = 0 ∧
      (solveR3WithCause ratSqrt 0 0 1).2 = R3Cause.converged := by
  exact ⟨ratSqrt_zero, solveR3_degenerate_converges ratSqrt ratSqrt_zero⟩

/-- C5: a velocity-channel selection equal to the sentinel string "none" makes
`handleCreateFdv` invoke the encoder with an absent (null) velocity channel, and
any other non-empty selection is passed through unchanged. -/
theorem fdv_velocity_none_sentinel (st : ConverterState) (savePath v : String)
    (hv1 : v ≠ "none") (hv2 : v ≠ "") :
    (mkFdvRequestV1 { st with velocityColumn := "none" } savePath).velocityCol = none ∧
      (mkFdvRequestV1 { st with velocityColumn := v } savePath).velocityCol = some v := by
  constructor
  · simp [mkFdvRequestV1]
  · simp [mkFdvRequestV1, hv1]

theorem fdv_velocity_none_sentinel_w :
    (mkFdvRequestV1 { initState with velocityColumn := "none" } "out.fdv").velocityCol =
        none ∧
      (mkFdvRequestV1 { initState with velocityColumn := "Velocity 1" } "out.fdv").velocityCol =
        some "Velocity 1" :=
  fdv_velocity_none_sentinel initState "out.fdv" "Velocity 1" (by decide) (by decide)

/-- C6, counterexample: loading a new file does not fully reset the session —
starting from a state whose rainfall channel selection is "Rainfall 1", the
selection still reads "Rainfall 1" after the new file is selected, so the
rainfall channel selection from the previous file survives instead of returning
to its empty initial value. -/
theorem fileChange_rainfall_survives_cex :
    (handleFileChangeSelected sampleLoadedState "C:\\data\\new.xlsx").rainfallColumn =
        "Rainfall 1" ∧
      ("Rainfall 1" : String) ≠ "" := by
  exact ⟨rfl, by decide⟩

/-- C6, amended: after a new file is selected and before it is processed, the
site identity fields, the depth and velocity channel selections, the pipe shape
and pipe size geometry fields, the processed-file data, and the error state are
returned to their empty initial values — but the rainfall channel selection is
not reset and survives from the previous file. -/
theorem fileChange_resets_except_rainfall (st : ConverterState) (selected : String) :
    (handleFileChangeSelected st selected).siteId = "" ∧
      (handleFileChangeSelected st selected).siteName = "" ∧
      (handleFileChangeSelected st selected).startTimestamp = "" ∧
      (handleFileChangeSelected st selected).endTimestamp = "" ∧
      (handleFileChangeSelected st selected).depthColumn = "" ∧
      (handleFileChangeSelected st selected).velocityColumn = "" ∧
      (handleFileChangeSelected st selected).pipeShape = "" ∧
      (handleFileChangeSelected st selected).pipeSize = "" ∧
      (handleFileChangeSelected st selected).processedData = none ∧
      (handleFileChangeSelected st selected).error = none ∧
      (handleFileChangeSelected st selected).rainfallColumn = st.rainfallColumn :=
  ⟨rfl, rfl, rfl, rfl, rfl, rfl, rfl, rfl, rfl, rfl, rfl⟩

/-- A concrete session whose raw data spans chronological instants 0 to 10. -/
def sampleSession : Session :=
  { siteId := "S1", siteName := "Site 1", startTs := 0, endTs := 10,
    rawStartTs := 0, rawEndTs := 10 }

/-- C7: a chronologically reversed pair is rejected with a validation error and
the stored timestamps are unchanged, while every ordered pair is stored — also
when it lies outside the raw data's range, in which case (and only in which
case) a warning event is emitted, but the bounds are stored anyway. -/
theorem updateTimestamps_validation (st : Session) (s e sg eg : ℤ)
    (h1 : e < s) (h2 : sg ≤ eg) :
    (updateTimestamps st s e).rejected = true ∧
      (updateTimestamps st s e).session = st ∧
      (updateTimestamps st sg eg).rejected = false ∧
      (updateTimestamps st sg eg).session.startTs = sg ∧
      (updateTimestamps st sg eg).session.endTs = eg ∧
      (updateTimestamps st sg eg).warned =
        (decide (sg < st.rawStartTs) || decide (st.rawEndTs < eg)) := by
  have hns : ¬s ≤ e := not_le.mpr h1
  refine ⟨?_, ?_, ?_, ?_, ?_, ?_⟩ <;> simp [updateTimestamps, hns, h2]

theorem updateTimestamps_validation_w :
    (updateTimestamps sampleSession 5 3).rejected = true ∧
      (updateTimestamps sampleSession 5 3).session = sampleSession ∧
      (updateTimestamps sampleSession (-2) 12).rejected = false ∧
      (updateTimestamps sampleSession (-2) 12).session.startTs = -2 ∧
      (updateTimestamps sampleSession (-2) 12).session.endTs = 12 ∧
      (updateTimestamps sampleSession (-2) 12).warned = true := by
  obtain ⟨a, b, c, d, e, f⟩ :=
    updateTimestamps_validation sampleSession 5 3 (-2) 12 (by decide) (by decide)
  exact ⟨a, b, c, d, e, f.trans (by decide)⟩

/-- C8: batch items are consumed exactly once and discarded after processing —
for a non-empty batch list a successful `run_batch_process` invocation empties
the list, a failed invocation leaves the list unchanged, and an empty batch list
produces an error message without any invocation at all. -/
theorem batchProcess_consumption (st : ConverterState) (files : List BatchFileDetails)
    (dir e : String) (r : Except String Unit) (hne : files ≠ []) :
    ((handleBatchProcess { st with batchFiles := files } (some dir)
        (Except.ok ())).state.batchFiles = [] ∧
      (handleBatchProcess { st with batchFiles := files } (some dir)
        (Except.ok ())).invoked = true) ∧
      ((handleBatchProcess { st with batchFiles := files } (some dir)
          (Except.error e)).state.batchFiles = files ∧
        (handleBatchProcess { st with batchFiles := files } (some dir)
          (Except.error e)).state.error =
            some ("Error during batch processing: " ++ e) ∧
        (handleBatchProcess { st with batchFiles := files } (some dir)
          (Except.error e)).invoked = true) ∧
      ((handleBatchProcess { st with batchFiles := [] } (some dir) r).invoked = false ∧
        (handleBatchProcess { st with batchFiles := [] } (some dir) r).state.error =
          some "No files selected for batch processing." ∧
        (handleBatchProcess { st with batchFiles := [] } (some dir) r).state.batchFiles =
          []) := by
  simp [handleBatchProcess, hne]

theorem batchProcess_consumption_w :
    ((handleBatchProcess { initState with batchFiles := [sampleLoadedState.batchFiles.headD
          { name := "", path := "", pipeShape := "", pipeSize := "" }] } (some "C:\\out")
        (Except.ok ())).state.batchFiles = [] ∧
      (handleBatchProcess { initState with batchFiles := [sampleLoadedState.batchFiles.headD
          { name := "", path := "", pipeShape := "", pipeSize := "" }] } (some "C:\\out")
        (Except.ok ())).invoked = true) ∧
      ((handleBatchProcess { initState with batchFiles := [sampleLoadedState.batchFiles.headD
            { name := "", path := "", pipeShape := "", pipeSize := "" }] } (some "C:\\out")
          (Except.error "boom")).state.batchFiles =
          [sampleLoadedState.batchFiles.headD
            { name := "", path := "", pipeShape := "", pipeSize := "" }] ∧
        (handleBatchProcess { initState with batchFiles := [sampleLoadedState.batchFiles.headD
            { name := "", path := "", pipeShape := "", pipeSize := "" }] } (some "C:\\out")
          (Except.error "boom")).state.error =
            some ("Error during batch processing: " ++ "boom") ∧
        (handleBatchProcess { initState with batchFiles := [sampleLoadedState.batchFiles.headD
            { name := "", path := "", pipeShape := "", pipeSize := "" }] } (some "C:\\out")
          (Except.error "boom")).invoked = true) ∧
      ((handleBatchProcess { initState with batchFiles := [] } (some "C:\\out")
          (Except.ok ())).invoked = false ∧
        (handleBatchProcess { initState with batchFiles := [] } (some "C:\\out")
          (Except.ok ())).state.error = some "No files selected for batch processing." ∧
        (handleBatchProcess { initState with batchFiles := [] } (some "C:\\out")
          (Except.ok ())).state.batchFiles = []) :=
  batchProcess_consumption initState
    [sampleLoadedState.batchFiles.headD { name := "", path := "", pipeShape := "", pipeSize := "" }]
    "C:\\out" "boom" (Except.ok ()) (by decide)

/-- C9: the R3 calculation handler is total and atomic on failure — an empty
pipe width or pipe height sets an error and returns without invoking the
solver leaving `r3Value` unchanged, a result parsing to NaN (`none`) or equal to
-1 sets the error "R3 calculation failed" leaving `r3Value` unchanged, and only
a successful numeric result stores it in `r3Value` formatted with exactly two
decimal places. -/
theorem calculateR3_total_atomic (st : ConverterState) (res : Except String (Option ℚ))
    (w h : String) (v : ℚ) (hw : w ≠ "") (hh : h ≠ "") (hv : v ≠ -1) :
    ((handleCalculateR3 { st with pipeWidth := "" } res).1.r3Value = st.r3Value ∧
      (handleCalculateR3 { st with pipeWidth := "" } res).1.error =
        some "Please fill in all required fields" ∧
      (handleCalculateR3 { st with pipeWidth := "" } res).2 = false) ∧
      ((handleCalculateR3 { st with pipeHeight := "" } res).1.r3Value = st.r3Value ∧
        (handleCalculateR3 { st with pipeHeight := "" } res).1.error =
          some "Please fill in all required fields" ∧
        (handleCalculateR3 { st with pipeHeight := "" } res).2 = false) ∧
      ((handleCalculateR3 { st with pipeWidth := w, pipeHeight := h }
          (Except.ok none)).1.r3Value = st.r3Value ∧
        (handleCalculateR3 { st with pipeWidth := w, pipeHeight := h }
          (Except.ok none)).1.error = some "R3 calculation failed") ∧
      ((handleCalculateR3 { st with pipeWidth := w, pipeHeight := h }
          (Except.ok (some (-1)))).1.r3Value = st.r3Value ∧
        (handleCalculateR3 { st with pipeWidth := w, pipeHeight := h }
          (Except.ok (some (-1)))).1.error = some "R3 calculation failed") ∧
      ((handleCalculateR3 { st with pipeWidth := w, pipeHeight := h }
          (Except.ok (some v))).1.r3Value = toFixed2 v ∧
        (handleCalculateR3 { st with pipeWidth := w, pipeHeight := h }
          (Except.ok (some v))).1.error = none ∧
        ∃ pre frac, toFixed2 v = pre ++ "." ++ frac ∧ frac.length = 2) := by
  refine ⟨⟨?_, ?_, ?_⟩, ⟨?_, ?_, ?_⟩, ⟨?_, ?_⟩, ⟨?_, ?_⟩, ⟨?_, ?_, ?_⟩⟩
  · simp [handleCalculateR3]
  · simp [handleCalculateR3]
  · simp [handleCalculateR3]
  · simp [handleCalculateR3]
  · simp [handleCalculateR3]
  · simp [handleCalculateR3]
  · simp [handleCalculateR3, hw, hh]
  · simp [handleCalculateR3, hw, hh]
  · simp [handleCalculateR3, hw, hh]
  · simp [handleCalculateR3, hw, hh]
  · simp [handleCalculateR3, hw, hh, hv]
  · simp [handleCalculateR3, hw, hh, hv]
  · exact ⟨(if v < 0 then "-" else "") ++ toString ((⌊|v| * 100 + 1 / 2⌋).toNat / 100),
      String.mk [Nat.digitChar ((⌊|v| * 100 + 1 / 2⌋).toNat / 10 % 10),
        Nat.digitChar ((⌊|v| * 100 + 1 / 2⌋).toNat % 10)], rfl, rfl⟩

theorem calculateR3_total_atomic_w :
    ((handleCalculateR3 { initState with pipeWidth := "" } (Except.error "x")).1.r3Value =
        initState.r3Value ∧
      (handleCalculateR3 { initState with pipeWidth := "" } (Except.error "x")).1.error =
        some "Please fill in all required fields" ∧
      (handleCalculateR3 { initState with pipeWidth := "" } (Except.error "x")).2 = false) ∧
      ((handleCalculateR3 { initState with pipeHeight := "" } (Except.error "x")).1.r3Value =
          initState.r3Value ∧
        (handleCalculateR3 { initState with pipeHeight := "" } (Except.error "x")).1.error =
          some "Please fill in all required fields" ∧
        (handleCalculateR3 { initState with pipeHeight := "" } (Except.error "x")).2 = false) ∧
      ((handleCalculateR3 { initState with pipeWidth := "300", pipeHeight := "450" }
          (Except.ok none)).1.r3Value = initState.r3Value ∧
        (handleCalculateR3 { initState with pipeWidth := "300", pipeHeight := "450" }
          (Except.ok none)).1.error = some "R3 calculation failed") ∧
      ((handleCalculateR3 { initState with pipeWidth := "300", pipeHeight := "450" }
          (Except.ok (some (-1)))).1.r3Value = initState.r3Value ∧
        (handleCalculateR3 { initState with pipeWidth := "300", pipeHeight := "450" }
          (Except.ok (some (-1)))).1.error = some "R3 calculation failed") ∧
      ((handleCalculateR3 { initState with pipeWidth := "300", pipeHeight := "450" }
          (Except.ok (some (247 / 2)))).1.r3Value = toFixed2 (247 / 2) ∧
        (handleCalculateR3 { initState with pipeWidth := "300", pipeHeight := "450" }
          (Except.ok (some (247 / 2)))).1.error = none ∧
        ∃ pre frac, toFixed2 (247 / 2) = pre ++ "." ++ frac ∧ frac.length = 2) :=
  calculateR3_total_atomic initState (Except.error "x") "300" "450" (247 / 2)
    (by decide) (by decide) (by norm_num)

/-- C10: the two copies of `handleCreateFdv` in fdv-converter.tsx construct the
same `create_fdv_flow` request — the same suggested file name, output path,
depth column, `none`-to-null velocity mapping, pipe shape and defaulted pipe
size — for every component state and chosen save path. -/
theorem createFdv_versions_equivalent (st : ConverterState) (savePath : String) :
    mkFdvRequestV1 st savePath = mkFdvRequestV2 st savePath :=
  rfl
